import Mathlib

/-!
Shallow embedding of `src/cli/utils.py`: static LLM provider tables
(`BASE_URLS`, `SHALLOW_AGENT_OPTIONS`, `DEEP_AGENT_OPTIONS`) and the three
selector functions `select_llm_provider`, `select_shallow_thinking_agent`
and `select_deep_thinking_agent`, which normalize their key argument with
`str.lower` and look it up in the corresponding table.

Python exceptions are embedded as an explicit error type: the `KeyError`
each function raises carries the original (non-lowercased) input string,
and the `IndexError` that `[...][0]` would raise on an empty model list is
kept as a separate, syntactically reachable error constructor — the
`except KeyError` handler in the source would not catch it, so whether it
is semantically reachable is a theorem about the tables, not a given.
-/

/-- Which table a failed lookup searched; this distinguishes the three
`KeyError` messages in `utils.py` ("Unknown LLM provider",
"Unknown provider for shallow agent", "Unknown provider for deep agent"). -/
inductive LookupTable where
  | providerName
  | shallowAgent
  | deepAgent
deriving DecidableEq

/-- Failure outcomes of the Python functions: a `KeyError` re-raised with the
original input string, or an `IndexError` from indexing `[0]` into an empty
model list (which the `except KeyError` handler would not catch). -/
inductive PyError where
  | unknownKey (table : LookupTable) (input : String)
  | indexError
deriving DecidableEq

/-- Models Python `str.lower` on a single character. CPython lowercases the
basic latin letters `A`–`Z` to `a`–`z`; every character appearing in the
tables of `utils.py` is basic latin, so `Char.toLower` from Lean core (which
does exactly that) is the embedding of the per-character case folding. -/
def pyLowerChar (c : Char) : Char := Char.toLower c

/-- Models Python `str.lower` on a whole string: character-wise lowering. -/
def pyLower (s : String) : String := ⟨s.data.map pyLowerChar⟩

/-- `BASE_URLS` from `utils.py`: the list of available base LLM providers,
holding their canonical display names. -/
def BASE_URLS : List String := ["OpenAI", "Anthropic", "DeepSeek"]

/-- `SHALLOW_AGENT_OPTIONS` from `utils.py`: provider key to the list of
shallow thinking agent models. The Python `dict` literal has pairwise
distinct keys, so it is embedded as an association list queried with
`List.lookup` (first match), which agrees with `dict` lookup here. -/
def SHALLOW_AGENT_OPTIONS : List (String × List String) :=
  [("openai", ["gpt-4o-mini"]),
   ("anthropic", ["claude-3-haiku"]),
   ("deepseek", ["deepseek-chat"])]

/-- `DEEP_AGENT_OPTIONS` from `utils.py`: provider key to the list of deep
thinking agent models, embedded like `SHALLOW_AGENT_OPTIONS`. -/
def DEEP_AGENT_OPTIONS : List (String × List String) :=
  [("openai", ["gpt-4o"]),
   ("anthropic", ["claude-3-opus"]),
   ("deepseek", ["deepseek-reasoner"])]

/-- Body of `select_llm_provider` over an explicit `BASE_URLS` value
(the Python function reads the module global at call time): build the
`{name.lower(): name for name in base_urls}` dict, lower the key, and
either return the stored name or raise `KeyError` with the original key. -/
def select_llm_provider_core (base_urls : List String) (provider_key : String) :
    Except PyError String :=
  let providers := base_urls.map (fun name => (pyLower name, name))
  let key := pyLower provider_key
  match providers.lookup key with
  | some name => .ok name
  | none => .error (.unknownKey .providerName provider_key)

/-- `select_llm_provider` from `utils.py`, reading the module-level table. -/
def select_llm_provider (provider_key : String) : Except PyError String :=
  select_llm_provider_core BASE_URLS provider_key

/-- Body of `select_shallow_thinking_agent` over an explicit table value:
lower the key, look it up, and return element `[0]` of the model list; a
missing key becomes the re-raised `KeyError`, an empty model list the
(uncaught) `IndexError`. -/
def select_shallow_thinking_agent_core (options : List (String × List String))
    (provider_key : String) : Except PyError String :=
  let key := pyLower provider_key
  match options.lookup key with
  | some models =>
    match models.head? with
    | some m => .ok m
    | none => .error .indexError
  | none => .error (.unknownKey .shallowAgent provider_key)

/-- `select_shallow_thinking_agent` from `utils.py`. -/
def select_shallow_thinking_agent (provider_key : String) : Except PyError String :=
  select_shallow_thinking_agent_core SHALLOW_AGENT_OPTIONS provider_key

/-- Body of `select_deep_thinking_agent` over an explicit table value;
same shape as the shallow variant, against the deep table. -/
def select_deep_thinking_agent_core (options : List (String × List String))
    (provider_key : String) : Except PyError String :=
  let key := pyLower provider_key
  match options.lookup key with
  | some models =>
    match models.head? with
    | some m => .ok m
    | none => .error .indexError
  | none => .error (.unknownKey .deepAgent provider_key)

/-- `select_deep_thinking_agent` from `utils.py`. -/
def select_deep_thinking_agent (provider_key : String) : Except PyError String :=
  select_deep_thinking_agent_core DEEP_AGENT_OPTIONS provider_key

/-- The module-level state a call can observe or mutate: the three global
tables of `utils.py`. The function bodies contain no assignment to them. -/
structure ModuleState where
  base_urls : List String
  shallow_agent_options : List (String × List String)
  deep_agent_options : List (String × List String)
deriving DecidableEq

/-- The module globals as initialized at import time. -/
def initState : ModuleState :=
  ⟨BASE_URLS, SHALLOW_AGENT_OPTIONS, DEEP_AGENT_OPTIONS⟩

/-- A call to `select_llm_provider` as a transformer of the module globals:
the body only reads `BASE_URLS`, so the state comes back unchanged. -/
def call_select_llm_provider (st : ModuleState) (k : String) :
    Except PyError String × ModuleState :=
  (select_llm_provider_core st.base_urls k, st)

/-- A call to `select_shallow_thinking_agent` as a state transformer. -/
def call_select_shallow_thinking_agent (st : ModuleState) (k : String) :
    Except PyError String × ModuleState :=
  (select_shallow_thinking_agent_core st.shallow_agent_options k, st)

/-- A call to `select_deep_thinking_agent` as a state transformer. -/
def call_select_deep_thinking_agent (st : ModuleState) (k : String) :
    Except PyError String × ModuleState :=
  (select_deep_thinking_agent_core st.deep_agent_options k, st)

/-- Per-character case folding is idempotent: lowering an already lowered
character changes nothing. -/
theorem pyLowerChar_idem (c : Char) : pyLowerChar (pyLowerChar c) = pyLowerChar c := by
  unfold pyLowerChar Char.toLower
  by_cases h : c.toNat ≥ 65 ∧ c.toNat ≤ 90
  · rw [if_pos h]
    have hv : (c.toNat + 32).isValidChar := Or.inl (by omega)
    have ht : (Char.ofNat (c.toNat + 32)).toNat = c.toNat + 32 := by
      rw [Char.ofNat, dif_pos hv]
      rfl
    rw [ht, if_neg (by omega)]
  · rw [if_neg h, if_neg h]

/-- `pyLower` is idempotent on every string. -/
theorem pyLower_idem (s : String) : pyLower (pyLower s) = pyLower s := by
  unfold pyLower
  congr 1
  rw [List.map_map]
  exact List.map_congr_left fun c _ => pyLowerChar_idem c

/-- Evaluating the `providers` dict comprehension of `select_llm_provider`
on the actual `BASE_URLS` table. -/
theorem providers_eval :
    BASE_URLS.map (fun name => (pyLower name, name)) =
      [("openai", "OpenAI"), ("anthropic", "Anthropic"), ("deepseek", "DeepSeek")] := by
  rfl

/-- Closed form of `select_llm_provider`: a case split on the lowered key. -/
theorem select_llm_provider_eq (k : String) :
    select_llm_provider k =
      if pyLower k = "openai" then .ok "OpenAI"
      else if pyLower k = "anthropic" then .ok "Anthropic"
      else if pyLower k = "deepseek" then .ok "DeepSeek"
      else .error (.unknownKey .providerName k) := by
  simp only [select_llm_provider, select_llm_provider_core, providers_eval]
  by_cases h1 : pyLower k = "openai"
  · simp [List.lookup, h1]
  · by_cases h2 : pyLower k = "anthropic"
    · simp [List.lookup, h2]
    · by_cases h3 : pyLower k = "deepseek"
      · simp [List.lookup, h3]
      · have hb1 : (pyLower k == "openai") = false := beq_eq_false_iff_ne.mpr h1
        have hb2 : (pyLower k == "anthropic") = false := beq_eq_false_iff_ne.mpr h2
        have hb3 : (pyLower k == "deepseek") = false := beq_eq_false_iff_ne.mpr h3
        simp [List.lookup, hb1, hb2, hb3, h1, h2, h3]

/-- Closed form of `select_shallow_thinking_agent`. -/
theorem select_shallow_thinking_agent_eq (k : String) :
    select_shallow_thinking_agent k =
      if pyLower k = "openai" then .ok "gpt-4o-mini"
      else if pyLower k = "anthropic" then .ok "claude-3-haiku"
      else if pyLower k = "deepseek" then .ok "deepseek-chat"
      else .error (.unknownKey .shallowAgent k) := by
  simp only [select_shallow_thinking_agent, select_shallow_thinking_agent_core,
    SHALLOW_AGENT_OPTIONS]
  by_cases h1 : pyLower k = "openai"
  · simp [List.lookup, h1]
  · by_cases h2 : pyLower k = "anthropic"
    · simp [List.lookup, h2]
    · by_cases h3 : pyLower k = "deepseek"
      · simp [List.lookup, h3]
      · have hb1 : (pyLower k == "openai") = false := beq_eq_false_iff_ne.mpr h1
        have hb2 : (pyLower k == "anthropic") = false := beq_eq_false_iff_ne.mpr h2
        have hb3 : (pyLower k == "deepseek") = false := beq_eq_false_iff_ne.mpr h3
        simp [List.lookup, hb1, hb2, hb3, h1, h2, h3]

/-- Closed form of `select_deep_thinking_agent`. -/
theorem select_deep_thinking_agent_eq (k : String) :
    select_deep_thinking_agent k =
      if pyLower k = "openai" then .ok "gpt-4o"
      else if pyLower k = "anthropic" then .ok "claude-3-opus"
      else if pyLower k = "deepseek" then .ok "deepseek-reasoner"
      else .error (.unknownKey .deepAgent k) := by
  simp only [select_deep_thinking_agent, select_deep_thinking_agent_core,
    DEEP_AGENT_OPTIONS]
  by_cases h1 : pyLower k = "openai"
  · simp [List.lookup, h1]
  · by_cases h2 : pyLower k = "anthropic"
    · simp [List.lookup, h2]
    · by_cases h3 : pyLower k = "deepseek"
      · simp [List.lookup, h3]
      · have hb1 : (pyLower k == "openai") = false := beq_eq_false_iff_ne.mpr h1
        have hb2 : (pyLower k == "anthropic") = false := beq_eq_false_iff_ne.mpr h2
        have hb3 : (pyLower k == "deepseek") = false := beq_eq_false_iff_ne.mpr h3
        simp [List.lookup, hb1, hb2, hb3, h1, h2, h3]

/-- Claim C1: for every supported provider key (openai, anthropic, deepseek)
written in any letter-casing — i.e. for every input whose `str.lower` image
is that key — `select_llm_provider` returns the canonical display name from
`BASE_URLS`: "OpenAI", "Anthropic", "DeepSeek" respectively. -/
theorem select_llm_provider_canonical (k : String) :
    (pyLower k = "openai" → select_llm_provider k = .ok "OpenAI") ∧
    (pyLower k = "anthropic" → select_llm_provider k = .ok "Anthropic") ∧
    (pyLower k = "deepseek" → select_llm_provider k = .ok "DeepSeek") := by
  rw [select_llm_provider_eq]
  refine ⟨fun h => ?_, fun h => ?_, fun h => ?_⟩ <;> simp [h]

/-- Witness for C1 at concrete mixed-case inputs. -/
theorem select_llm_provider_canonical_witness :
    select_llm_provider "OpenAI" = .ok "OpenAI" ∧
    select_llm_provider "ANTHROPIC" = .ok "Anthropic" ∧
    select_llm_provider "deepseek" = .ok "DeepSeek" :=
  ⟨(select_llm_provider_canonical "OpenAI").1 (by decide),
   (select_llm_provider_canonical "ANTHROPIC").2.1 (by decide),
   (select_llm_provider_canonical "deepseek").2.2 (by decide)⟩

/-- Claim C2: for every supported provider key in any letter-casing, the
shallow selector returns the first entry of the shallow model
list and the deep selector the first entry of its deep model list:
"gpt-4o-mini"/"gpt-4o" for openai, "claude-3-haiku"/"claude-3-opus" for
anthropic, "deepseek-chat"/"deepseek-reasoner" for deepseek. -/
theorem select_agents_first_entry (k : String) :
    (pyLower k = "openai" →
      select_shallow_thinking_agent k = .ok "gpt-4o-mini" ∧
      select_deep_thinking_agent k = .ok "gpt-4o") ∧
    (pyLower k = "anthropic" →
      select_shallow_thinking_agent k = .ok "claude-3-haiku" ∧
      select_deep_thinking_agent k = .ok "claude-3-opus") ∧
    (pyLower k = "deepseek" →
      select_shallow_thinking_agent k = .ok "deepseek-chat" ∧
      select_deep_thinking_agent k = .ok "deepseek-reasoner") := by
  rw [select_shallow_thinking_agent_eq, select_deep_thinking_agent_eq]
  refine ⟨fun h => ?_, fun h => ?_, fun h => ?_⟩ <;> simp [h]

/-- Witness for C2 at concrete mixed-case inputs. -/
theorem select_agents_first_entry_witness :
    (select_shallow_thinking_agent "OPENAI" = .ok "gpt-4o-mini" ∧
      select_deep_thinking_agent "OPENAI" = .ok "gpt-4o") ∧
    (select_shallow_thinking_agent "Anthropic" = .ok "claude-3-haiku" ∧
      select_deep_thinking_agent "Anthropic" = .ok "claude-3-opus") ∧
    (select_shallow_thinking_agent "DeepSeek" = .ok "deepseek-chat" ∧
      select_deep_thinking_agent "DeepSeek" = .ok "deepseek-reasoner") :=
  ⟨(select_agents_first_entry "OPENAI").1 (by decide),
   (select_agents_first_entry "Anthropic").2.1 (by decide),
   (select_agents_first_entry "DeepSeek").2.2 (by decide)⟩

/-- Claim C3: on every input whose lowered form is none of the table keys,
each of the three operations fails with its own UnknownKey error, and the
error carries the original, non-normalized input string `k` (not
`pyLower k`). -/
theorem unknown_key_failures (k : String)
    (h1 : pyLower k ≠ "openai") (h2 : pyLower k ≠ "anthropic")
    (h3 : pyLower k ≠ "deepseek") :
    select_llm_provider k = .error (.unknownKey .providerName k) ∧
    select_shallow_thinking_agent k = .error (.unknownKey .shallowAgent k) ∧
    select_deep_thinking_agent k = .error (.unknownKey .deepAgent k) := by
  rw [select_llm_provider_eq, select_shallow_thinking_agent_eq,
    select_deep_thinking_agent_eq]
  simp [h1, h2, h3]

/-- Witness for C3 at the concrete unknown key "Mistral" (mixed case, so the
carried string differs from its lowered form). -/
theorem unknown_key_failures_witness :
    select_llm_provider "Mistral" = .error (.unknownKey .providerName "Mistral") ∧
    select_shallow_thinking_agent "Mistral" =
      .error (.unknownKey .shallowAgent "Mistral") ∧
    select_deep_thinking_agent "Mistral" =
      .error (.unknownKey .deepAgent "Mistral") :=
  unknown_key_failures "Mistral" (by decide) (by decide) (by decide)

/-- Claim C4: case-insensitivity is total. For every input string `k`, each
operation produces the same outcome on `k` as on `pyLower k`: the same
returned value when it succeeds, and failure exactly when the other fails
(`Except.toOption` identifies outcomes up to this). In particular every
mixed-case variant of a valid key resolves identically to the lowercase
key. -/
theorem case_insensitivity_total (k : String) :
    (select_llm_provider k).toOption =
      (select_llm_provider (pyLower k)).toOption ∧
    (select_shallow_thinking_agent k).toOption =
      (select_shallow_thinking_agent (pyLower k)).toOption ∧
    (select_deep_thinking_agent k).toOption =
      (select_deep_thinking_agent (pyLower k)).toOption := by
  refine ⟨?_, ?_, ?_⟩
  · rw [select_llm_provider_eq k, select_llm_provider_eq (pyLower k), pyLower_idem]
    split_ifs <;> rfl
  · rw [select_shallow_thinking_agent_eq k,
      select_shallow_thinking_agent_eq (pyLower k), pyLower_idem]
    split_ifs <;> rfl
  · rw [select_deep_thinking_agent_eq k,
      select_deep_thinking_agent_eq (pyLower k), pyLower_idem]
    split_ifs <;> rfl

/-- Claim C5: each operation is total over arbitrary string input — it either
returns a string or fails with its UnknownKey error carrying the input; no
other failure mode (in particular the IndexError from `[0]`) is reachable. -/
theorem selectors_total (k : String) :
    ((∃ v, select_llm_provider k = .ok v) ∨
      select_llm_provider k = .error (.unknownKey .providerName k)) ∧
    ((∃ v, select_shallow_thinking_agent k = .ok v) ∨
      select_shallow_thinking_agent k = .error (.unknownKey .shallowAgent k)) ∧
    ((∃ v, select_deep_thinking_agent k = .ok v) ∨
      select_deep_thinking_agent k = .error (.unknownKey .deepAgent k)) := by
  refine ⟨?_, ?_, ?_⟩
  · rw [select_llm_provider_eq]
    split_ifs <;> simp
  · rw [select_shallow_thinking_agent_eq]
    split_ifs <;> simp
  · rw [select_deep_thinking_agent_eq]
    split_ifs <;> simp

/-- Claim C6: the static tables satisfy the data-model invariant — the names
in `BASE_URLS` are pairwise distinct, and the key set of each agent table
equals the set of lowercased `BASE_URLS` entries. -/
theorem tables_invariant :
    BASE_URLS.Nodup ∧
    (SHALLOW_AGENT_OPTIONS.map Prod.fst).toFinset =
      (BASE_URLS.map pyLower).toFinset ∧
    (DEEP_AGENT_OPTIONS.map Prod.fst).toFinset =
      (BASE_URLS.map pyLower).toFinset := by
  refine ⟨by decide, ?_, ?_⟩ <;> rfl

/-- Claim C7: each operation is deterministic and idempotent across calls.
Modelling a call as a transformer of the module globals, a call leaves the
state unchanged for any starting state, and a second call with the same
input (run from the state the first call left behind) returns the same
result as the first. -/
theorem repeated_calls_identical (st : ModuleState) (k : String) :
    (call_select_llm_provider st k).2 = st ∧
    (call_select_shallow_thinking_agent st k).2 = st ∧
    (call_select_deep_thinking_agent st k).2 = st ∧
    (call_select_llm_provider (call_select_llm_provider st k).2 k).1 =
      (call_select_llm_provider st k).1 ∧
    (call_select_shallow_thinking_agent
        (call_select_shallow_thinking_agent st k).2 k).1 =
      (call_select_shallow_thinking_agent st k).1 ∧
    (call_select_deep_thinking_agent
        (call_select_deep_thinking_agent st k).2 k).1 =
      (call_select_deep_thinking_agent st k).1 :=
  ⟨rfl, rfl, rfl, rfl, rfl, rfl⟩

/-- Claim C8: every model list stored in the shallow and deep agent tables
has exactly one element (in particular it is non-empty), so element `[0]`
exists for every present key. -/
theorem agent_model_lists_singleton (k : String) (ms : List String) :
    (SHALLOW_AGENT_OPTIONS.lookup k = some ms → ms.length = 1) ∧
    (DEEP_AGENT_OPTIONS.lookup k = some ms → ms.length = 1) := by
  constructor
  · intro h
    by_cases h1 : k = "openai"
    · simp [SHALLOW_AGENT_OPTIONS, List.lookup, h1] at h
      subst h
      decide
    · by_cases h2 : k = "anthropic"
      · simp [SHALLOW_AGENT_OPTIONS, List.lookup, h2] at h
        subst h
        decide
      · by_cases h3 : k = "deepseek"
        · simp [SHALLOW_AGENT_OPTIONS, List.lookup, h3] at h
          subst h
          decide
        · have hb1 : (k == "openai") = false := beq_eq_false_iff_ne.mpr h1
          have hb2 : (k == "anthropic") = false := beq_eq_false_iff_ne.mpr h2
          have hb3 : (k == "deepseek") = false := beq_eq_false_iff_ne.mpr h3
          simp [SHALLOW_AGENT_OPTIONS, List.lookup, hb1, hb2, hb3] at h
  · intro h
    by_cases h1 : k = "openai"
    · simp [DEEP_AGENT_OPTIONS, List.lookup, h1] at h
      subst h
      decide
    · by_cases h2 : k = "anthropic"
      · simp [DEEP_AGENT_OPTIONS, List.lookup, h2] at h
        subst h
        decide
      · by_cases h3 : k = "deepseek"
        · simp [DEEP_AGENT_OPTIONS, List.lookup, h3] at h
          subst h
          decide
        · have hb1 : (k == "openai") = false := beq_eq_false_iff_ne.mpr h1
          have hb2 : (k == "anthropic") = false := beq_eq_false_iff_ne.mpr h2
          have hb3 : (k == "deepseek") = false := beq_eq_false_iff_ne.mpr h3
          simp [DEEP_AGENT_OPTIONS, List.lookup, hb1, hb2, hb3] at h

/-- Witness for C8 at the key "openai" present in both tables. -/
theorem agent_model_lists_singleton_witness :
    (["gpt-4o-mini"] : List String).length = 1 ∧
    (["gpt-4o"] : List String).length = 1 :=
  ⟨(agent_model_lists_singleton "openai" ["gpt-4o-mini"]).1 (by rfl),
   (agent_model_lists_singleton "openai" ["gpt-4o"]).2 (by rfl)⟩

/-- Claim C9: round-trip through normalization — whenever
`select_llm_provider` succeeds on `k`, the lowered form of the returned
canonical name equals the lowered form of `k`. -/
theorem select_llm_provider_roundtrip (k name : String)
    (h : select_llm_provider k = .ok name) :
    pyLower name = pyLower k := by
  rw [select_llm_provider_eq] at h
  split_ifs at h with h1 h2 h3
  · simp only [Except.ok.injEq] at h
    subst h
    rw [h1]
    decide
  · simp only [Except.ok.injEq] at h
    subst h
    rw [h2]
    decide
  · simp only [Except.ok.injEq] at h
    subst h
    rw [h3]
    decide

/-- Witness for C9 at the mixed-case input "OPENAI". -/
theorem select_llm_provider_roundtrip_witness :
    pyLower "OpenAI" = pyLower "OPENAI" :=
  select_llm_provider_roundtrip "OPENAI" "OpenAI" (by rfl)

/-- Claim C10: the three operations share one success domain — on every
input, `select_llm_provider` succeeds exactly when
`select_shallow_thinking_agent` does, exactly when
`select_deep_thinking_agent` does. -/
theorem selectors_common_success_domain (k : String) :
    (select_llm_provider k).isOk = (select_shallow_thinking_agent k).isOk ∧
    (select_shallow_thinking_agent k).isOk =
      (select_deep_thinking_agent k).isOk := by
  rw [select_llm_provider_eq, select_shallow_thinking_agent_eq,
    select_deep_thinking_agent_eq]
  constructor <;> (split_ifs <;> rfl)
